import Mathlib

/-!
Verification of the RAG evaluation pipeline in `scripts/evaluate-rag.py`
(`load_evaluation_data`, `prepare_dataset`, `run_evaluation`, `save_results`,
`print_summary`, `main`) against its natural-language specification.

Shallow embedding conventions:
* Python dict access `data.get(key, [])` is modelled by `Option` fields on
  `RawData` (`none` = key absent) and `Option.getD []`.
* Strings and rational numbers stand in for Python strings and floats; a
  missing score (pandas `NaN`) is `Option.none`, so pandas' `skipna`
  aggregation and the "unavailable" marker are explicit.
* Exceptions are `Except`: `datasetFromDict` models the column-length check
  that the `datasets`/`pyarrow` library performs inside `Dataset.from_dict`
  (each later column is compared against the first column's length and a
  mismatch raises an error naming the column and both lengths; four equal
  columns of any length, including zero, are accepted).
* The file system is an explicit `FileSystem` record threaded through `main`;
  console output is recorded in an `Outcome` record instead of printed.
-/

namespace EvaluateRag

/-- Raw input mapping parsed from `outputs/evaluation_data.json`.  A field is
`none` when the key is absent from the JSON object, mirroring that
`prepare_dataset` reads each key with `data.get(key, [])`. -/
structure RawData where
  questions : Option (List String)
  answers : Option (List String)
  contexts : Option (List (List String))
  ground_truths : Option (List String)
deriving DecidableEq

/-- Columnar dataset produced by `Dataset.from_dict` in `prepare_dataset`:
columns `question`, `answer`, `contexts`, `ground_truth`. -/
structure RagDataset where
  question : List String
  answer : List String
  contexts : List (List String)
  ground_truth : List String
deriving DecidableEq

/-- Number of rows of the dataset (`len(dataset)`); `pyarrow` takes the first
column's length as the table's row count. -/
def RagDataset.numRows (ds : RagDataset) : Nat :=
  ds.question.length

/-- Error raised by `Dataset.from_dict` when a column's length differs from
the first column's: the message names the offending column, the expected
length and the observed length. -/
structure ColumnError where
  column : String
  expected : Nat
  got : Nat
deriving DecidableEq

/-- Library length check inside `Dataset.from_dict`: every column must have
the first column's length; the first mismatching column (in insertion order
`question`, `answer`, `contexts`, `ground_truth`) is reported.  All-equal
lengths are accepted, including length zero. -/
def datasetFromDict (q a : List String) (c : List (List String))
    (g : List String) : Except ColumnError RagDataset :=
  if a.length ≠ q.length then .error ⟨"answer", q.length, a.length⟩
  else if c.length ≠ q.length then .error ⟨"contexts", q.length, c.length⟩
  else if g.length ≠ q.length then .error ⟨"ground_truth", q.length, g.length⟩
  else .ok ⟨q, a, c, g⟩

/-- Embedding of `prepare_dataset` (evaluate-rag.py:33-45): reads the four keys with
`data.get(key, [])` and hands the columns to `Dataset.from_dict` unchanged. -/
def prepare_dataset (data : RawData) : Except ColumnError RagDataset :=
  datasetFromDict (data.questions.getD []) (data.answers.getD [])
    (data.contexts.getD []) (data.ground_truths.getD [])

/-- One scorer's output for one sample: a numeric score, or `none` with an
optional failure reason when the metric is unavailable for that sample. -/
structure MetricResult where
  score : Option ℚ
  reason : Option String
deriving DecidableEq

/-- Metric capability, the external collaborator contract: a stable `name`
and a fallible scoring operation over the whole dataset; raising is the
`Except.error` branch carrying the exception's message. -/
structure MetricCapability where
  name : String
  score : RagDataset → Except String (List MetricResult)

/-- Result object returned by `ragas.evaluate`: a mapping from metric name to
per-sample results, modelled as an association list in metric order. -/
abbrev RagasResult := List (String × List MetricResult)

/-- Modelled from the spec: the per-metric loop inside `ragas.evaluate` with
`raise_exceptions=False` is library code not present under `src/`; the spec
(§4.3) describes it as invoking each configured metric once over the whole
dataset in list order and, when a metric raises, recording that metric as
entirely unavailable (every sample carries the failure reason, no numeric
score) and continuing with the next metric. -/
def runMetrics (metrics : List MetricCapability) (ds : RagDataset) :
    RagasResult :=
  metrics.map fun m =>
    match m.score ds with
    | .ok rs => (m.name, rs)
    | .error e => (m.name, List.replicate ds.numRows ⟨none, some e⟩)

/-- The `evaluate(dataset=..., metrics=..., raise_exceptions=False)` call in
`run_evaluation`.  `fault` injects an exception raised by the invocation
itself (infrastructure failure outside the per-metric isolation); with no
fault the call returns the per-metric mapping. -/
def evaluateCall (fault : Option String) (metrics : List MetricCapability)
    (ds : RagDataset) : Except String RagasResult :=
  match fault with
  | some e => .error e
  | none => .ok (runMetrics metrics ds)

/-- Embedding of `run_evaluation` (evaluate-rag.py:47-71): wraps the `evaluate` call in
`try/except`, returning `None` when the invocation raises. -/
def run_evaluation (fault : Option String) (metrics : List MetricCapability)
    (ds : RagDataset) : Option RagasResult :=
  match evaluateCall fault metrics ds with
  | .ok r => some r
  | .error _ => none

/-- Running sum and count of the non-null entries of a column, the pass that
pandas' `Series.mean()` performs with its default `skipna=True`. -/
def nanSum : List (Option ℚ) → ℚ × Nat
  | [] => (0, 0)
  | none :: xs => nanSum xs
  | some x :: xs => (x + (nanSum xs).1, (nanSum xs).2 + 1)

/-- Sum of squared deviations from `m` over the non-null entries of a column,
the second pass of pandas' `Series.std()` with `skipna=True`. -/
def nanSqDev (m : ℚ) : List (Option ℚ) → ℚ
  | [] => 0
  | none :: xs => nanSqDev m xs
  | some x :: xs => (x - m) ^ 2 + nanSqDev m xs

/-- Value of `df[col].mean()`: the mean over the non-null entries; `none` models the
`NaN` pandas returns when no entry is available. -/
def colMean (xs : List (Option ℚ)) : Option ℚ :=
  if (nanSum xs).2 = 0 then none
  else some ((nanSum xs).1 / ((nanSum xs).2 : ℚ))

/-- Squared value of `df[col].std()`: pandas' default `ddof=1` sample
variance over the non-null entries; `none` models the `NaN` pandas returns
for fewer than two available entries (0/0 for a single one).  The printed
standard deviation is the square root of this value. -/
def colVar (xs : List (Option ℚ)) : Option ℚ :=
  if (nanSum xs).2 ≤ 1 then none
  else some (nanSqDev ((nanSum xs).1 / ((nanSum xs).2 : ℚ)) xs /
    (((nanSum xs).2 - 1 : Nat) : ℚ))

/-- The fixed column list of `print_summary` (evaluate-rag.py:98-99). -/
def metrics_cols : List String :=
  ["faithfulness", "answer_relevancy", "context_precision",
   "context_recall", "answer_correctness"]

/-- Per-sample score column of one metric in `results.to_pandas()`:
unavailable samples become `NaN` (`none`). -/
def scoresOf (rs : List MetricResult) : List (Option ℚ) :=
  rs.map MetricResult.score

/-- Column lookup in the result mapping, the `if col in df.columns` test plus
`df[col]` access of `print_summary`. -/
def lookupCol (col : String) : RagasResult → Option (List MetricResult)
  | [] => none
  | (n, rs) :: rest => if n = col then some rs else lookupCol col rest

/-- One line of the metrics summary printed by `print_summary`: the metric
name, its mean and its squared standard deviation. -/
structure MetricSummary where
  name : String
  mean : Option ℚ
  std2 : Option ℚ
deriving DecidableEq

/-- `print_summary` (evaluate-rag.py:85-113), abstracted to the data it
computes: for each column of `metrics_cols` present in the results, the mean
and standard deviation of that column. -/
def print_summary (r : RagasResult) : List MetricSummary :=
  metrics_cols.filterMap fun col =>
    match lookupCol col r with
    | some rs => some ⟨col, colMean (scoresOf rs), colVar (scoresOf rs)⟩
    | none => none

/-- Explicit file-system state threaded through `main`: the input artifact
`outputs/evaluation_data.json` (`none` = file absent), the output artifact
`outputs/evaluation_results.json`, and an injected write failure (`some e` =
writing the output raises exception `e`). -/
structure FileSystem where
  inputFile : Option RawData
  outputFile : Option RagasResult
  writeFail : Option String
deriving DecidableEq

/-- Embedding of `load_evaluation_data` (evaluate-rag.py:21-31): opening a missing file
raises `FileNotFoundError`, which is caught and converted to `None`; an
existing file's parsed content is returned. -/
def load_evaluation_data (fs : FileSystem) : Option RawData :=
  fs.inputFile

/-- Embedding of `save_results` (evaluate-rag.py:73-83): serializes the results and writes
them; a write failure raises and is not caught inside `save_results`. -/
def save_results (fs : FileSystem) (results : RagasResult) :
    Except String FileSystem :=
  match fs.writeFail with
  | some e => .error e
  | none => .ok { fs with outputFile := some results }

/-- Exceptions that escape `main` uncaught: the column-length error raised
inside `prepare_dataset` and the write error raised inside `save_results`. -/
inductive MainError where
  | validation : ColumnError → MainError
  | persistence : String → MainError
deriving DecidableEq

/-- Observable outcome of one `main` run: whether the usage instructions were
printed, the dataset built (if any), how many metric-capability invocations
happened, the computed result object held in memory (if any), the printed
summary (if any), the exception that escaped `main` (if any), and the final
file-system state. -/
structure Outcome where
  usagePrinted : Bool
  datasetBuilt : Option RagDataset
  metricsInvoked : Nat
  reportComputed : Option RagasResult
  summaryPrinted : Option (List MetricSummary)
  uncaughtError : Option MainError
  fs : FileSystem
deriving DecidableEq

/-- Embedding of `main` (evaluate-rag.py:115-147): load, early-return with usage text when
the data is `None`, prepare the dataset (a raised column error escapes),
run the evaluation, early-return when the results are `None`, save (a raised
write error escapes), then print the summary.  `runMetrics` invokes each
capability exactly once, so a completed evaluation counts `metrics.length`
invocations. -/
def main (fault : Option String) (metrics : List MetricCapability)
    (fs : FileSystem) : Outcome :=
  match load_evaluation_data fs with
  | none => ⟨true, none, 0, none, none, none, fs⟩
  | some data =>
    match prepare_dataset data with
    | .error e => ⟨false, none, 0, none, none, some (.validation e), fs⟩
    | .ok ds =>
      match run_evaluation fault metrics ds with
      | none => ⟨false, some ds, 0, none, none, none, fs⟩
      | some results =>
        match save_results fs results with
        | .error e =>
            ⟨false, some ds, metrics.length, some results, none,
             some (.persistence e), fs⟩
        | .ok fs2 =>
            ⟨false, some ds, metrics.length, some results,
             some (print_summary results), none, fs2⟩

/-! Concrete fixtures used by witnesses and counterexamples. -/

/-- Two-sample dataset fixture. -/
def sampleDs : RagDataset :=
  ⟨["q1", "q2"], ["a1", ""], [["c1"], ["c2"]], ["g1", "g2"]⟩

/-- Deterministic capability scoring from the answer column alone. -/
def probeMetric : MetricCapability :=
  ⟨"faithfulness", fun ds =>
    .ok (ds.answer.map fun a => ⟨some (if a = "" then 0 else 1), none⟩)⟩

/-- Capability whose invocation raises. -/
def contextRecallDown : MetricCapability :=
  ⟨"context_recall", fun _ => .error "model API timeout"⟩

/-- Second capability whose invocation raises. -/
def answerSimDown : MetricCapability :=
  ⟨"answer_similarity", fun _ => .error "judge model unreachable"⟩

/-- Capability scoring from the ground-truth column. -/
def groundTruthMetric : MetricCapability :=
  ⟨"context_recall", fun ds =>
    .ok (ds.ground_truth.map fun g => ⟨some (if g = "" then 0 else 1), none⟩)⟩

/-- Raw input whose four keys are all present and empty (N = 0). -/
def emptyRaw : RawData := ⟨some [], some [], some [], some []⟩

/-- File system holding the empty raw input, with working writes. -/
def fsEmptyIn : FileSystem := ⟨some emptyRaw, none, none⟩

/-- Raw input with one sample and the `ground_truths` key absent. -/
def noGtRaw : RawData :=
  ⟨some ["What is RAG?"], some ["Retrieval augmented generation."],
   some [["RAG combines retrieval with generation."]], none⟩

/-- File system holding `noGtRaw`, with working writes. -/
def fsNoGt : FileSystem := ⟨some noGtRaw, none, none⟩

/-! Claim theorems. -/

/-- C1: if one metric's invocation raises, the Metric Runner does not abort
the remaining metrics: the failing metric's entry is entirely unavailable
(every sample carries the failure reason and no numeric score), and the run
splits into the runs of the metrics before and after it, so every remaining
metric's per-sample entry is identical to its entry in a run without the
failing metric. -/
theorem runMetrics_isolates_failing_metric (pre post : List MetricCapability)
    (f : MetricCapability) (ds : RagDataset) (r : String)
    (hf : f.score ds = .error r) :
    runMetrics (pre ++ f :: post) ds =
      runMetrics pre ds ++
        (f.name, List.replicate ds.numRows ⟨none, some r⟩) ::
          runMetrics post ds ∧
    runMetrics (pre ++ post) ds = runMetrics pre ds ++ runMetrics post ds := by
  constructor
  · simp [runMetrics, hf]
  · simp [runMetrics]

/-- Witness for C1 at a concrete failing metric between two runs. -/
theorem runMetrics_isolates_failing_metric_witness :
    runMetrics ([probeMetric] ++ contextRecallDown :: []) sampleDs =
      runMetrics [probeMetric] sampleDs ++
        ("context_recall",
          List.replicate sampleDs.numRows ⟨none, some "model API timeout"⟩) ::
          runMetrics [] sampleDs ∧
    runMetrics ([probeMetric] ++ []) sampleDs =
      runMetrics [probeMetric] sampleDs ++ runMetrics [] sampleDs :=
  runMetrics_isolates_failing_metric [probeMetric] [] contextRecallDown
    sampleDs "model API timeout" rfl

/-- C3: the Metric Runner's mapping always has exactly one entry per
configured metric, in order; and in the degenerate case where every
configured metric fails, every entry is a full-length all-unavailable
sequence carrying a failure reason — a complete report, never a missing
one. -/
theorem runMetrics_one_entry_per_metric (metrics : List MetricCapability)
    (ds : RagDataset) :
    (runMetrics metrics ds).map Prod.fst =
      metrics.map MetricCapability.name ∧
    ((∀ m ∈ metrics, ∃ e, m.score ds = .error e) →
      ∀ p ∈ runMetrics metrics ds, p.2.length = ds.numRows ∧
        ∀ mr ∈ p.2, mr.score = none ∧ mr.reason.isSome) := by
  constructor
  · simp only [runMetrics, List.map_map]
    refine List.map_congr_left fun m _ => ?_
    cases hm : m.score ds <;> simp [hm]
  · intro hall p hp
    simp only [runMetrics, List.mem_map] at hp
    obtain ⟨m, hm, rfl⟩ := hp
    obtain ⟨e, he⟩ := hall m hm
    refine ⟨by simp [he], fun mr hmr => ?_⟩
    rw [he] at hmr
    simp only [List.mem_replicate] at hmr
    simp [hmr.2]

/-- Witness for C3 with two concrete metrics that both fail. -/
theorem runMetrics_one_entry_per_metric_witness :
    (runMetrics [contextRecallDown, answerSimDown] sampleDs).map Prod.fst =
      [contextRecallDown, answerSimDown].map MetricCapability.name ∧
    ∀ p ∈ runMetrics [contextRecallDown, answerSimDown] sampleDs,
      p.2.length = sampleDs.numRows ∧
        ∀ mr ∈ p.2, mr.score = none ∧ mr.reason.isSome :=
  ⟨(runMetrics_one_entry_per_metric [contextRecallDown, answerSimDown]
      sampleDs).1,
   (runMetrics_one_entry_per_metric [contextRecallDown, answerSimDown]
      sampleDs).2 (by
        intro m hm
        simp only [List.mem_cons, List.not_mem_nil, or_false] at hm
        rcases hm with rfl | rfl
        · exact ⟨"model API timeout", rfl⟩
        · exact ⟨"judge model unreachable", rfl⟩)⟩

/-- C2 counterexample: with all four sequences present and empty (common
length N = 0), validation does not fail — the empty dataset is built,
evaluation proceeds, the configured metric is invoked, and no error is
raised, contradicting the claim that N = 0 fails before any metric work. -/
theorem empty_input_accepted :
    prepare_dataset emptyRaw = .ok ⟨[], [], [], []⟩ ∧
    (main none [probeMetric] fsEmptyIn).metricsInvoked = 1 ∧
    (main none [probeMetric] fsEmptyIn).datasetBuilt = some ⟨[], [], [], []⟩ ∧
    (main none [probeMetric] fsEmptyIn).uncaughtError = none := by
  exact ⟨rfl, rfl, rfl, rfl⟩

/-- C2 (amended): if the four sequences have differing lengths, dataset
construction fails with an error naming the offending column and the
expected and observed lengths, no dataset is built and no metric capability
is invoked; a common length of 0, however, is accepted: the empty dataset is
built and evaluation proceeds to invoke every configured metric. -/
theorem length_mismatch_fails_fast (data : RawData) (fault : Option String)
    (metrics : List MetricCapability) (fs : FileSystem)
    (hfs : fs.inputFile = some data) :
    (¬ ((data.answers.getD []).length = (data.questions.getD []).length ∧
        (data.contexts.getD []).length = (data.questions.getD []).length ∧
        (data.ground_truths.getD []).length =
          (data.questions.getD []).length) →
      ∃ e, prepare_dataset data = .error e ∧
        e.expected = (data.questions.getD []).length ∧
        e.got ≠ e.expected ∧
        ((e.column = "answer" ∧ e.got = (data.answers.getD []).length) ∨
         (e.column = "contexts" ∧ e.got = (data.contexts.getD []).length) ∨
         (e.column = "ground_truth" ∧
           e.got = (data.ground_truths.getD []).length)) ∧
        main fault metrics fs =
          ⟨false, none, 0, none, none, some (.validation e), fs⟩) ∧
    (data.questions.getD [] = [] → data.answers.getD [] = [] →
      data.contexts.getD [] = [] → data.ground_truths.getD [] = [] →
      prepare_dataset data = .ok ⟨[], [], [], []⟩ ∧
      (main none metrics fs).metricsInvoked = metrics.length ∧
      (main none metrics fs).datasetBuilt = some ⟨[], [], [], []⟩) := by
  constructor
  · intro hne
    by_cases ha :
        (data.answers.getD []).length = (data.questions.getD []).length
    · by_cases hc :
          (data.contexts.getD []).length = (data.questions.getD []).length
      · by_cases hg :
            (data.ground_truths.getD []).length =
              (data.questions.getD []).length
        · exact absurd ⟨ha, hc, hg⟩ hne
        · have hprep : prepare_dataset data =
              .error ⟨"ground_truth", (data.questions.getD []).length,
                (data.ground_truths.getD []).length⟩ := by
            simp [prepare_dataset, datasetFromDict, ha, hc, hg]
          exact ⟨_, hprep, rfl, hg, Or.inr (Or.inr ⟨rfl, rfl⟩),
            by simp [main, load_evaluation_data, hfs, hprep]⟩
      · have hprep : prepare_dataset data =
            .error ⟨"contexts", (data.questions.getD []).length,
              (data.contexts.getD []).length⟩ := by
          simp [prepare_dataset, datasetFromDict, ha, hc]
        exact ⟨_, hprep, rfl, hc, Or.inr (Or.inl ⟨rfl, rfl⟩),
          by simp [main, load_evaluation_data, hfs, hprep]⟩
    · have hprep : prepare_dataset data =
          .error ⟨"answer", (data.questions.getD []).length,
            (data.answers.getD []).length⟩ := by
        simp [prepare_dataset, datasetFromDict, ha]
      exact ⟨_, hprep, rfl, ha, Or.inl ⟨rfl, rfl⟩,
        by simp [main, load_evaluation_data, hfs, hprep]⟩
  · intro hq ha hc hg
    have hprep : prepare_dataset data = .ok ⟨[], [], [], []⟩ := by
      simp [prepare_dataset, datasetFromDict, hq, ha, hc, hg]
    refine ⟨hprep, ?_, ?_⟩ <;>
      cases hw : fs.writeFail <;>
        simp [main, load_evaluation_data, hfs, hprep, run_evaluation,
          evaluateCall, save_results, hw]

/-- Raw input whose answer sequence is shorter than its question sequence. -/
def mismatchRaw : RawData := ⟨some ["q1"], some [], some [], some []⟩

/-- File system holding `mismatchRaw`, with working writes. -/
def fsMismatch : FileSystem := ⟨some mismatchRaw, none, none⟩

/-- Witness for C2 (amended) at a concrete mismatched input and a concrete
all-empty input. -/
theorem length_mismatch_fails_fast_witness :
    (∃ e, prepare_dataset mismatchRaw = .error e ∧
      e.expected = (mismatchRaw.questions.getD []).length ∧
      e.got ≠ e.expected ∧
      ((e.column = "answer" ∧ e.got = (mismatchRaw.answers.getD []).length) ∨
       (e.column = "contexts" ∧
         e.got = (mismatchRaw.contexts.getD []).length) ∨
       (e.column = "ground_truth" ∧
         e.got = (mismatchRaw.ground_truths.getD []).length)) ∧
      main none [probeMetric] fsMismatch =
        ⟨false, none, 0, none, none, some (.validation e), fsMismatch⟩) ∧
    (prepare_dataset emptyRaw = .ok ⟨[], [], [], []⟩ ∧
      (main none [probeMetric] fsEmptyIn).metricsInvoked = 1 ∧
      (main none [probeMetric] fsEmptyIn).datasetBuilt =
        some ⟨[], [], [], []⟩) :=
  ⟨(length_mismatch_fails_fast mismatchRaw none [probeMetric] fsMismatch
      rfl).1 (by decide),
   (length_mismatch_fails_fast emptyRaw none [probeMetric] fsEmptyIn rfl).2
      rfl rfl rfl rfl⟩

/-- C6 counterexample: an input with one sample and the `ground_truths` key
absent does not degrade gracefully — the missing key becomes an empty column
whose length 0 mismatches the question column's length 1, dataset
construction raises, the error escapes `main`, and no metric (including one
that requires the ground truth) is ever invoked, contradicting "report
per-sample unavailable instead of aborting the run". -/
theorem missing_ground_truths_aborts :
    prepare_dataset noGtRaw = .error ⟨"ground_truth", 1, 0⟩ ∧
    (main none [groundTruthMetric] fsNoGt).uncaughtError =
      some (.validation ⟨"ground_truth", 1, 0⟩) ∧
    (main none [groundTruthMetric] fsNoGt).metricsInvoked = 0 ∧
    (main none [groundTruthMetric] fsNoGt).reportComputed = none := by
  exact ⟨rfl, rfl, rfl, rfl⟩

/-- C6 (amended): each of the four keys, when missing, is read as an empty
sequence rather than raising a key error — replacing an absent key by an
explicitly empty one changes nothing; but an input whose `ground_truths` key
is missing while the other sequences are non-empty (and mutually aligned)
does not degrade gracefully: the empty default column mismatches the others,
dataset construction fails naming `ground_truth`, the error escapes, and no
metric is invoked. -/
theorem missing_key_defaults_empty (data : RawData) (fault : Option String)
    (metrics : List MetricCapability) (fs : FileSystem) :
    prepare_dataset { data with questions := none } =
      prepare_dataset { data with questions := some [] } ∧
    prepare_dataset { data with answers := none } =
      prepare_dataset { data with answers := some [] } ∧
    prepare_dataset { data with contexts := none } =
      prepare_dataset { data with contexts := some [] } ∧
    prepare_dataset { data with ground_truths := none } =
      prepare_dataset { data with ground_truths := some [] } ∧
    (fs.inputFile = some data → data.ground_truths = none →
      (data.answers.getD []).length = (data.questions.getD []).length →
      (data.contexts.getD []).length = (data.questions.getD []).length →
      1 ≤ (data.questions.getD []).length →
      prepare_dataset data =
        .error ⟨"ground_truth", (data.questions.getD []).length, 0⟩ ∧
      main fault metrics fs =
        ⟨false, none, 0, none, none,
         some (.validation
           ⟨"ground_truth", (data.questions.getD []).length, 0⟩), fs⟩) := by
  refine ⟨rfl, rfl, rfl, rfl, fun hfs hgt ha hc hn => ?_⟩
  have hprep : prepare_dataset data =
      .error ⟨"ground_truth", (data.questions.getD []).length, 0⟩ := by
    have hlen : ((data.ground_truths.getD []) : List String).length = 0 := by
      rw [hgt]
      rfl
    simp [prepare_dataset, datasetFromDict, ha, hc, hlen]
    omega
  exact ⟨hprep, by simp [main, load_evaluation_data, hfs, hprep]⟩

/-- Witness for C6 (amended) at the concrete one-sample input missing its
`ground_truths` key. -/
theorem missing_key_defaults_empty_witness :
    prepare_dataset { noGtRaw with questions := none } =
      prepare_dataset { noGtRaw with questions := some [] } ∧
    prepare_dataset noGtRaw =
      .error ⟨"ground_truth", (noGtRaw.questions.getD []).length, 0⟩ ∧
    main none [groundTruthMetric] fsNoGt =
      ⟨false, none, 0, none, none,
       some (.validation
         ⟨"ground_truth", (noGtRaw.questions.getD []).length, 0⟩), fsNoGt⟩ :=
  ⟨(missing_key_defaults_empty noGtRaw none [groundTruthMetric] fsNoGt).1,
   (missing_key_defaults_empty noGtRaw none [groundTruthMetric]
      fsNoGt).2.2.2.2 rfl rfl rfl rfl (by decide)⟩

/-- C5: on a valid input whose four sequences have equal length N ≥ 1 the
Dataset Builder succeeds, producing exactly N samples whose four columns are
the input sequences unchanged — order preserved (index i in = index i out)
and values untransformed. -/
theorem prepare_dataset_preserves_samples (data : RawData)
    (ha : (data.answers.getD []).length = (data.questions.getD []).length)
    (hc : (data.contexts.getD []).length = (data.questions.getD []).length)
    (hg : (data.ground_truths.getD []).length =
      (data.questions.getD []).length)
    (_hn : 1 ≤ (data.questions.getD []).length) :
    prepare_dataset data = .ok ⟨data.questions.getD [], data.answers.getD [],
      data.contexts.getD [], data.ground_truths.getD []⟩ ∧
    ∀ ds, prepare_dataset data = .ok ds →
      ds.numRows = (data.questions.getD []).length ∧
      (∀ i : Nat, ds.question[i]? = (data.questions.getD [])[i]?) ∧
      (∀ i : Nat, ds.answer[i]? = (data.answers.getD [])[i]?) ∧
      (∀ i : Nat, ds.contexts[i]? = (data.contexts.getD [])[i]?) ∧
      (∀ i : Nat, ds.ground_truth[i]? = (data.ground_truths.getD [])[i]?) := by
  have hok : prepare_dataset data =
      .ok ⟨data.questions.getD [], data.answers.getD [],
        data.contexts.getD [], data.ground_truths.getD []⟩ := by
    simp [prepare_dataset, datasetFromDict, ha, hc, hg]
  refine ⟨hok, fun ds hds => ?_⟩
  rw [hok] at hds
  cases hds
  exact ⟨rfl, fun _ => rfl, fun _ => rfl, fun _ => rfl, fun _ => rfl⟩

/-- Raw input with two aligned samples, all keys present. -/
def twoSampleRaw : RawData :=
  ⟨some ["q1", "q2"], some ["a1", ""], some [["c1"], ["c2"]],
   some ["g1", "g2"]⟩

/-- Witness for C5 at a concrete valid two-sample input. -/
theorem prepare_dataset_preserves_samples_witness :
    prepare_dataset twoSampleRaw =
      .ok ⟨twoSampleRaw.questions.getD [], twoSampleRaw.answers.getD [],
        twoSampleRaw.contexts.getD [], twoSampleRaw.ground_truths.getD []⟩ ∧
    ∀ ds, prepare_dataset twoSampleRaw = .ok ds →
      ds.numRows = (twoSampleRaw.questions.getD []).length ∧
      (∀ i : Nat, ds.question[i]? = (twoSampleRaw.questions.getD [])[i]?) ∧
      (∀ i : Nat, ds.answer[i]? = (twoSampleRaw.answers.getD [])[i]?) ∧
      (∀ i : Nat, ds.contexts[i]? = (twoSampleRaw.contexts.getD [])[i]?) ∧
      (∀ i : Nat,
        ds.ground_truth[i]? = (twoSampleRaw.ground_truths.getD [])[i]?) :=
  prepare_dataset_preserves_samples twoSampleRaw rfl rfl rfl (by decide)

/-- The running sum of `nanSum` is the sum of the available entries. -/
theorem nanSum_fst (xs : List (Option ℚ)) :
    (nanSum xs).1 = (xs.filterMap id).sum := by
  induction xs with
  | nil => rfl
  | cons x xs ih => cases x <;> simp [nanSum, ih]

/-- The running count of `nanSum` is the number of available entries. -/
theorem nanSum_snd (xs : List (Option ℚ)) :
    (nanSum xs).2 = (xs.filterMap id).length := by
  induction xs with
  | nil => rfl
  | cons x xs ih => cases x <;> simp [nanSum, ih]

/-- Lemma: `nanSqDev` sums the squared deviations of the available entries. -/
theorem nanSqDev_eq (m : ℚ) (xs : List (Option ℚ)) :
    nanSqDev m xs = ((xs.filterMap id).map fun x => (x - m) ^ 2).sum := by
  induction xs with
  | nil => rfl
  | cons x xs ih => cases x <;> simp [nanSqDev, ih]

/-- C4: every metric line of the printed summary reports, for its metric's
column in the results, the arithmetic mean over exactly the available scores
and the sample (ddof = 1) standard deviation over exactly the available
scores (stated via its square); with zero available scores both are the
explicit undefined marker `none`, never the value `0`. -/
theorem summary_stats_over_available_scores (r : RagasResult)
    (s : MetricSummary) (hs : s ∈ print_summary r) :
    ∃ rs, lookupCol s.name r = some rs ∧
      (s.mean = if ((scoresOf rs).filterMap id).length = 0 then none
        else some (((scoresOf rs).filterMap id).sum /
          (((scoresOf rs).filterMap id).length : ℚ))) ∧
      (s.std2 = if ((scoresOf rs).filterMap id).length ≤ 1 then none
        else some ((((scoresOf rs).filterMap id).map fun x =>
            (x - ((scoresOf rs).filterMap id).sum /
              (((scoresOf rs).filterMap id).length : ℚ)) ^ 2).sum /
          ((((scoresOf rs).filterMap id).length - 1 : Nat) : ℚ))) ∧
      (((scoresOf rs).filterMap id).length = 0 →
        s.mean = none ∧ s.std2 = none ∧
          s.mean ≠ some 0 ∧ s.std2 ≠ some 0) := by
  simp only [print_summary, List.mem_filterMap] at hs
  obtain ⟨col, _, hcol⟩ := hs
  cases hlook : lookupCol col r with
  | none => rw [hlook] at hcol; cases hcol
  | some rs =>
    rw [hlook] at hcol
    cases hcol
    refine ⟨rs, hlook, ?_, ?_, ?_⟩
    · simp only [colMean, nanSum_fst, nanSum_snd]
    · simp only [colVar, nanSum_fst, nanSum_snd, nanSqDev_eq]
    · intro h0
      simp [colMean, colVar, nanSum_snd, h0]

/-- Result fixture with one metric column: two available scores and one
unavailable sample. -/
def sampleResult : RagasResult :=
  [("faithfulness",
    [⟨some 1, none⟩, ⟨some (1/2), none⟩, ⟨none, some "parse error"⟩])]

/-- Witness for C4 at a concrete summary line: mean 3/4 and sample variance
1/8 over the two available scores of three samples. -/
theorem summary_stats_over_available_scores_witness :
    (⟨"faithfulness", some (3/4), some (1/8)⟩ : MetricSummary) ∈
      print_summary sampleResult ∧
    ∃ rs, lookupCol "faithfulness" sampleResult = some rs ∧
      ((some (3/4) : Option ℚ) =
        if ((scoresOf rs).filterMap id).length = 0 then none
        else some (((scoresOf rs).filterMap id).sum /
          (((scoresOf rs).filterMap id).length : ℚ))) ∧
      ((some (1/8) : Option ℚ) =
        if ((scoresOf rs).filterMap id).length ≤ 1 then none
        else some ((((scoresOf rs).filterMap id).map fun x =>
            (x - ((scoresOf rs).filterMap id).sum /
              (((scoresOf rs).filterMap id).length : ℚ)) ^ 2).sum /
          ((((scoresOf rs).filterMap id).length - 1 : Nat) : ℚ))) ∧
      (((scoresOf rs).filterMap id).length = 0 →
        (some (3/4) : Option ℚ) = none ∧ (some (1/8) : Option ℚ) = none ∧
          (some (3/4) : Option ℚ) ≠ some 0 ∧
          (some (1/8) : Option ℚ) ≠ some 0) :=
  ⟨by
    have h : print_summary sampleResult =
        [⟨"faithfulness", some (3/4), some (1/8)⟩] := by
      simp [print_summary, metrics_cols, sampleResult, List.filterMap_cons,
        lookupCol, scoresOf, colMean, colVar, nanSum, nanSqDev]
      norm_num
    rw [h]
    exact List.mem_singleton.mpr rfl,
   summary_stats_over_available_scores sampleResult
     ⟨"faithfulness", some (3/4), some (1/8)⟩ (by
      have h : print_summary sampleResult =
          [⟨"faithfulness", some (3/4), some (1/8)⟩] := by
        simp [print_summary, metrics_cols, sampleResult, List.filterMap_cons,
          lookupCol, scoresOf, colMean, colVar, nanSum, nanSqDev]
        norm_num
      rw [h]
      exact List.mem_singleton.mpr rfl)⟩

/-- C7: the pipeline is idempotent — a second `main` run over the file
system left by a first run, with the same deterministic metric capabilities
and the same injected environment behaviour, produces exactly the same
outcome (same report, same file-system state): the only write goes to the
output artifact, which is not an input of the pipeline, and no state is
cached across runs. -/
theorem pipeline_idempotent (fault : Option String)
    (metrics : List MetricCapability) (fs : FileSystem) :
    main fault metrics ((main fault metrics fs).fs) =
      main fault metrics fs := by
  cases hin : fs.inputFile with
  | none => simp [main, load_evaluation_data, hin]
  | some data =>
    cases hprep : prepare_dataset data with
    | error e => simp [main, load_evaluation_data, hin, hprep]
    | ok ds =>
      cases fault with
      | some e =>
          simp [main, load_evaluation_data, hin, hprep, run_evaluation,
            evaluateCall]
      | none =>
          cases hw : fs.writeFail with
          | some e =>
              simp [main, load_evaluation_data, hin, hprep, run_evaluation,
                evaluateCall, save_results, hw]
          | none =>
              simp [main, load_evaluation_data, hin, hprep, run_evaluation,
                evaluateCall, save_results, hw]

/-- C8: when writing the output artifact fails, the write error escapes
`main` unchanged, the in-memory report — exactly the mapping the evaluation
computed — is already fully present in the outcome, the file system is left
untouched, and retrying persistence alone on a writable file system succeeds
with that same report. -/
theorem save_failure_preserves_report (metrics : List MetricCapability)
    (fs : FileSystem) (data : RawData) (ds : RagDataset) (e : String)
    (hfs : fs.inputFile = some data) (hprep : prepare_dataset data = .ok ds)
    (hw : fs.writeFail = some e) :
    run_evaluation none metrics ds = some (runMetrics metrics ds) ∧
    main none metrics fs =
      ⟨false, some ds, metrics.length, some (runMetrics metrics ds), none,
       some (.persistence e), fs⟩ ∧
    save_results { fs with writeFail := none } (runMetrics metrics ds) =
      .ok { fs with
              writeFail := none,
              outputFile := some (runMetrics metrics ds) } := by
  refine ⟨rfl, ?_, rfl⟩
  simp [main, load_evaluation_data, hfs, hprep, run_evaluation, evaluateCall,
    save_results, hw]

/-- File system fixture whose output write fails. -/
def fsReadOnly : FileSystem := ⟨some twoSampleRaw, none, some "disk full"⟩

/-- Witness for C8 at a concrete run whose save step fails. -/
theorem save_failure_preserves_report_witness :
    run_evaluation none [probeMetric]
        ⟨twoSampleRaw.questions.getD [], twoSampleRaw.answers.getD [],
         twoSampleRaw.contexts.getD [], twoSampleRaw.ground_truths.getD []⟩ =
      some (runMetrics [probeMetric]
        ⟨twoSampleRaw.questions.getD [], twoSampleRaw.answers.getD [],
         twoSampleRaw.contexts.getD [], twoSampleRaw.ground_truths.getD []⟩) ∧
    main none [probeMetric] fsReadOnly =
      ⟨false,
       some ⟨twoSampleRaw.questions.getD [], twoSampleRaw.answers.getD [],
         twoSampleRaw.contexts.getD [], twoSampleRaw.ground_truths.getD []⟩,
       [probeMetric].length,
       some (runMetrics [probeMetric]
         ⟨twoSampleRaw.questions.getD [], twoSampleRaw.answers.getD [],
          twoSampleRaw.contexts.getD [], twoSampleRaw.ground_truths.getD []⟩),
       none, some (.persistence "disk full"), fsReadOnly⟩ ∧
    save_results { fsReadOnly with writeFail := none }
        (runMetrics [probeMetric]
          ⟨twoSampleRaw.questions.getD [], twoSampleRaw.answers.getD [],
           twoSampleRaw.contexts.getD [],
           twoSampleRaw.ground_truths.getD []⟩) =
      .ok { fsReadOnly with
              writeFail := none,
              outputFile := some (runMetrics [probeMetric]
                ⟨twoSampleRaw.questions.getD [], twoSampleRaw.answers.getD [],
                 twoSampleRaw.contexts.getD [],
                 twoSampleRaw.ground_truths.getD []⟩) } :=
  save_failure_preserves_report [probeMetric] fsReadOnly twoSampleRaw
    ⟨twoSampleRaw.questions.getD [], twoSampleRaw.answers.getD [],
     twoSampleRaw.contexts.getD [], twoSampleRaw.ground_truths.getD []⟩
    "disk full" rfl rfl rfl

/-- C9: when the input file does not exist, loading returns `None` rather
than raising, and `main` then stops after printing the usage instructions:
no dataset is built, no metric is invoked, no report exists, nothing is
saved (the file system is unchanged) and no exception escapes. -/
theorem missing_input_prints_usage (fault : Option String)
    (metrics : List MetricCapability) (fs : FileSystem)
    (h : fs.inputFile = none) :
    load_evaluation_data fs = none ∧
    main fault metrics fs = ⟨true, none, 0, none, none, none, fs⟩ := by
  constructor
  · exact h
  · simp [main, load_evaluation_data, h]

/-- File system fixture with no input file. -/
def fsNoInput : FileSystem := ⟨none, none, none⟩

/-- Witness for C9 at a concrete file system without the input artifact. -/
theorem missing_input_prints_usage_witness :
    load_evaluation_data fsNoInput = none ∧
    main none [probeMetric] fsNoInput =
      ⟨true, none, 0, none, none, none, fsNoInput⟩ :=
  missing_input_prints_usage none [probeMetric] fsNoInput rfl

/-- C10: when the `evaluate` invocation itself raises, `run_evaluation`
catches the exception and returns `None`, and `main` then terminates without
saving or printing anything: no report, no summary, the file system (and so
the output artifact) unchanged, and no exception escapes. -/
theorem eval_fault_returns_none (metrics : List MetricCapability)
    (fs : FileSystem) (data : RawData) (ds : RagDataset) (e : String)
    (hfs : fs.inputFile = some data)
    (hprep : prepare_dataset data = .ok ds) :
    run_evaluation (some e) metrics ds = none ∧
    main (some e) metrics fs =
      ⟨false, some ds, 0, none, none, none, fs⟩ := by
  constructor
  · rfl
  · simp [main, load_evaluation_data, hfs, hprep, run_evaluation,
      evaluateCall]

/-- File system fixture with a valid two-sample input and working writes. -/
def fsTwoSample : FileSystem := ⟨some twoSampleRaw, none, none⟩

/-- Witness for C10 at a concrete run whose evaluate call raises. -/
theorem eval_fault_returns_none_witness :
    run_evaluation (some "rate limited") [probeMetric]
        ⟨twoSampleRaw.questions.getD [], twoSampleRaw.answers.getD [],
         twoSampleRaw.contexts.getD [], twoSampleRaw.ground_truths.getD []⟩ =
      none ∧
    main (some "rate limited") [probeMetric] fsTwoSample =
      ⟨false,
       some ⟨twoSampleRaw.questions.getD [], twoSampleRaw.answers.getD [],
         twoSampleRaw.contexts.getD [], twoSampleRaw.ground_truths.getD []⟩,
       0, none, none, none, fsTwoSample⟩ :=
  eval_fault_returns_none [probeMetric] fsTwoSample twoSampleRaw
    ⟨twoSampleRaw.questions.getD [], twoSampleRaw.answers.getD [],
     twoSampleRaw.contexts.getD [], twoSampleRaw.ground_truths.getD []⟩
    "rate limited" rfl rfl

end EvaluateRag
